import Mathlib

/-!
Verification development for the promptCompiler repository.

The frontend TypeScript sources (types, axios api client, the Pinia
prompt/history/template stores) are embedded shallowly: TypeScript
interfaces become structures, store actions become pure state-transition
functions, and the JavaScript runtime checks (truthiness, `||` defaults)
are modelled explicitly with `Option`.  Numeric fields that are JS
numbers are embedded as `ℚ` (scores) or `Int`/`Nat` (counters).
Backend pipeline stages that are not part of the checked sources are
modelled from the specification and marked as such in their doc comments.
-/

namespace PromptCompiler

/-! ## Data model (src/frontend/src/types/index.ts) -/

/-- `OptimizationLevel` enum: low | medium | high. -/
inductive OptimizationLevel where
  | low
  | medium
  | high
deriving DecidableEq, Repr

/-- `TaskType` enum with its seven members. -/
inductive TaskType where
  | generation
  | analysis
  | conversation
  | extraction
  | transformation
  | reasoning
  | other
deriving DecidableEq, Repr

/-- `IntentResult` interface.  `context: Record<string, any>` is embedded as an
association list of string pairs; `confidence: number` as `ℚ`. -/
structure IntentResult where
  task_type : TaskType
  domain : String
  objective : String
  constraints : List String
  keywords : List String
  context : List (String × String)
  confidence : ℚ
deriving DecidableEq, Repr

/-- `PromptTemplate` interface. -/
structure PromptTemplate where
  template_id : String
  name : String
  description : Option String
  role : String
  objective : String
  constraints : List String
  output_format : String
  context_vars : List (String × String)
  task_types : List TaskType
  domains : List String
  tags : List String
  created_at : String
  updated_at : String
  usage_count : Nat
  avg_quality_score : ℚ
deriving DecidableEq, Repr

/-- `CompiledPrompt` interface. -/
structure CompiledPrompt where
  version_id : String
  original_input : String
  intent : IntentResult
  template_id : Option String
  role : String
  objective : String
  constraints : List String
  output_format : String
  context : List (String × String)
  full_prompt : String
  optimization_level : OptimizationLevel
  optimized : Bool
  created_at : String
deriving DecidableEq, Repr

/-- `QualityMetrics` interface; the five `number` scores as `ℚ`. -/
structure QualityMetrics where
  structure_score : ℚ
  consistency_score : ℚ
  completeness_score : ℚ
  clarity_score : ℚ
  overall_score : ℚ
deriving DecidableEq, Repr

/-- `CompileRequest` interface. -/
structure CompileRequest where
  user_input : String
  template_id : Option String
  optimization_level : OptimizationLevel
  auto_evaluate : Bool
deriving DecidableEq, Repr

/-! ### Declared record shapes

For the contract-shape claim the interfaces are additionally reflected as
field lists `(name, required?)`, read off the `interface` declarations in
types/index.ts, in declaration order. -/

/-- Fields of the `CompileRequest` interface, in source order;
`true` = required, `false` = optional (`?`). -/
def compileRequestFields : List (String × Bool) :=
  [("user_input", true), ("template_id", false),
   ("optimization_level", true), ("auto_evaluate", true)]

/-- Fields of the `CompileResponse` interface, in source order. -/
def compileResponseFields : List (String × Bool) :=
  [("success", true), ("compiled_prompt", true), ("metrics", false),
   ("suggestions", true), ("formatted_output", true)]

/-- The spec's compile request shape (§6):
`{user_input: text, template_id?: id, optimization_level: low|medium|high, auto_evaluate: bool}`. -/
def specCompileRequestShape : List (String × Bool) :=
  [("user_input", true), ("template_id", false),
   ("optimization_level", true), ("auto_evaluate", true)]

/-- The spec's compile response shape (§6):
`{compiled_prompt: CompiledPrompt, metrics?: QualityMetrics, suggestions: [text]}`. -/
def specCompileResponseShape : List (String × Bool) :=
  [("compiled_prompt", true), ("metrics", false), ("suggestions", true)]

/-! ## API client (src/frontend/src/services/api.ts)

`apiClient` is created with `axios.create({baseURL: '/api', timeout: 120000, ...})`
and a response interceptor that rewrites every transport error into a
structured `{status, message}` rejection value. -/

/-- The `axios.create` configuration of `apiClient`. -/
structure ApiClientConfig where
  baseURL : String
  timeout : Nat
deriving DecidableEq, Repr

/-- The concrete configuration used in api.ts. -/
def apiClientConfig : ApiClientConfig :=
  { baseURL := "/api", timeout := 120000 }

/-- The shape of an axios error object as the interceptor inspects it:
`code`, `message`, the presence and content of `error.response`
(status plus the `detail` / `error_message` fields of its data), and
whether `error.request` is set. -/
structure AxiosErrorModel where
  code : Option String
  message : Option String
  responseStatus : Option Int
  responseDetail : Option String
  responseErrorMessage : Option String
  hasRequest : Bool
deriving DecidableEq, Repr

/-- The structured rejection value the interceptor produces. -/
structure ApiError where
  status : Int
  message : String
deriving DecidableEq, Repr

/-- JS truthiness for an optional string: `undefined`, `null` and `""` are
falsy.  Used to embed `a || b` chains over string-valued fields. -/
def jsStr : Option String → Option String
  | none => none
  | some s => if s = "" then none else some s

/-- `pat` occurs as a contiguous run inside `l` (JS `String.includes`). -/
def charsInfixOf (pat : List Char) : List Char → Bool
  | [] => pat.isEmpty
  | c :: rest => pat.isPrefixOf (c :: rest) || charsInfixOf pat rest

/-- `error.code === 'ECONNABORTED' || error.message?.includes('timeout')`. -/
def isTimeoutError (e : AxiosErrorModel) : Bool :=
  e.code = some "ECONNABORTED" ||
    charsInfixOf "timeout".toList (e.message.getD "").toList

/-- The error branch of the response interceptor in api.ts: timeout errors
become `{status: 0, message: '请求超时，请稍后重试'}`; server responses keep
their status and take `detail || error_message || '请求失败'` as message;
request-only errors become status 0 with a network message; anything else
becomes status -1. -/
def interceptError (e : AxiosErrorModel) : ApiError :=
  if isTimeoutError e then
    { status := 0, message := "请求超时，请稍后重试" }
  else
    match e.responseStatus with
    | some st =>
        { status := st,
          message := ((jsStr e.responseDetail).orElse
            (fun _ => jsStr e.responseErrorMessage)).getD "请求失败" }
    | none =>
        if e.hasRequest then
          { status := 0, message := "网络错误，请检查您的网络连接" }
        else
          { status := -1, message := e.message.getD "未知错误" }

/-! ## Prompt store (stores/promptStore, `src/unnamed/part_004`)

`CompileProgress` is the progress enum; `compile` drives it with a
`setInterval` ticker (one forward step per tick) and settles it from the
service outcome.  The store state and the `compile` action are embedded as
a pure transition on the state plus the outcome of `promptService.compile`. -/

/-- `CompileProgress` enum, in declaration order. -/
inductive CompileProgress where
  | idle
  | starting
  | extracting_intent
  | generating_prompt
  | optimizing
  | self_checking
  | evaluating
  | completed
  | error
deriving DecidableEq, Repr

/-- Position of a progress state in the declared order. -/
def CompileProgress.idx : CompileProgress → Nat
  | .idle => 0
  | .starting => 1
  | .extracting_intent => 2
  | .generating_prompt => 3
  | .optimizing => 4
  | .self_checking => 5
  | .evaluating => 6
  | .completed => 7
  | .error => 8

/-- One firing of the `setInterval` callback in `compile`: the `if` /
`else if` chain that advances `progress.value`, parameterised by the
request's `optimization_level` and `auto_evaluate`. -/
def progressTick (req : CompileRequest) (p : CompileProgress) : CompileProgress :=
  if p = .starting then .extracting_intent
  else if p = .extracting_intent then .generating_prompt
  else if p = .generating_prompt then
    (if req.optimization_level ≠ .low then .optimizing else .self_checking)
  else if p = .optimizing then .self_checking
  else if p = .self_checking ∧ req.auto_evaluate then .evaluating
  else p

/-- The progress state after `n` timer firings, starting from the
`STARTING` state `compile` assigns on entry. -/
def progressTrace (req : CompileRequest) (n : Nat) : CompileProgress :=
  (progressTick req)^[n] .starting

/-- The compile response as the store receives it at runtime: `compile`
guards with `response && response.compiled_prompt`, `response.metrics || null`
and `response.suggestions || []`, so the payload fields are modelled as
present-or-absent. -/
structure CompileResponseWire where
  success : Bool
  compiled_prompt : Option CompiledPrompt
  metrics : Option QualityMetrics
  suggestions : Option (List String)
  formatted_output : Option String
deriving DecidableEq, Repr

/-- Outcome of `await promptService.compile(request)`: a rejection carries
the interceptor's structured error (its `message`, possibly absent for a
plain thrown value); a resolution carries the response, which may itself be
null/undefined. -/
abbrev CompileOutcome := Except (Option String) (Option CompileResponseWire)

/-- `response && response.compiled_prompt`: the well-formedness check the
store applies before accepting a response. -/
def respWellFormed : CompileOutcome → Bool
  | .ok (some r) => r.compiled_prompt.isSome
  | _ => false

/-- The prompt store's state fields touched by `compile`. -/
structure PromptStoreState where
  loading : Bool
  progress : CompileProgress
  error : Option String
  currentPrompt : Option CompiledPrompt
  currentMetrics : Option QualityMetrics
  suggestions : List String
deriving DecidableEq, Repr

/-- The `compile` action as a state transition.  On entry it sets
`loading := true`, `error := null`, `progress := STARTING`; the ticker then
fires `ticks` times; on a well-formed response it stores the prompt,
`metrics || null` and `suggestions || []` and sets `COMPLETED`, returning
the response; otherwise (malformed response → thrown `'响应格式不正确'`, or
a rejected call) it sets `ERROR`, stores the error message (default
`'编译失败'` when the thrown value has no usable message) and returns null.
The `finally` block clears `loading`. -/
def compileStep (st : PromptStoreState) (req : CompileRequest) (ticks : Nat)
    (outcome : CompileOutcome) : PromptStoreState × Option CompileResponseWire :=
  let entry : PromptStoreState :=
    { st with loading := true, error := none,
              progress := progressTrace req ticks }
  match outcome with
  | .ok (some r) =>
      match r.compiled_prompt with
      | some p =>
          ({ entry with
               currentPrompt := some p,
               currentMetrics := r.metrics,
               suggestions := r.suggestions.getD [],
               progress := .completed,
               loading := false }, some r)
      | none =>
          ({ entry with progress := .error,
                        error := some "响应格式不正确",
                        loading := false }, none)
  | .ok none =>
      ({ entry with progress := .error,
                    error := some "响应格式不正确",
                    loading := false }, none)
  | .error msg =>
      ({ entry with progress := .error,
                    error := some ((jsStr msg).getD "编译失败"),
                    loading := false }, none)

/-- The delayed reset in `compile`'s `finally` block: after 2 s the
progress returns to `IDLE` unless it is `ERROR`. -/
def delayedProgressReset (st : PromptStoreState) : PromptStoreState :=
  if st.progress ≠ .error then { st with progress := .idle } else st

/-! ## History store (stores/historyStore, `src/unnamed/part_003`) -/

/-- The history store's state fields used by pagination. -/
structure HistoryState where
  records : List CompiledPrompt
  total : Nat
  currentPage : Nat
  pageSize : Nat
deriving DecidableEq, Repr

/-- Ceiling of the real division `total / pageSize`, embedded over `ℚ`. -/
def totalPagesOf (total pageSize : Nat) : Nat :=
  (⌈(total : ℚ) / (pageSize : ℚ)⌉).toNat

/-- `totalPages = Math.ceil(total.value / pageSize.value)`. -/
def totalPages (st : HistoryState) : Nat :=
  totalPagesOf st.total st.pageSize

/-- A successful `fetchHistory(page)`: `currentPage := page`, then the
response's records and total are stored.  The response is the pair
`(records, total)` returned by `historyService.list`. -/
def fetchHistoryOk (st : HistoryState) (page : Nat)
    (resp : List CompiledPrompt × Nat) : HistoryState :=
  { st with currentPage := page, records := resp.1, total := resp.2 }

/-- `nextPage()`: fetch the next page only when `currentPage < totalPages`. -/
def nextPage (st : HistoryState) (resp : List CompiledPrompt × Nat) :
    HistoryState :=
  if st.currentPage < totalPages st then
    fetchHistoryOk st (st.currentPage + 1) resp
  else st

/-- `prevPage()`: fetch the previous page only when `currentPage > 1`. -/
def prevPage (st : HistoryState) (resp : List CompiledPrompt × Nat) :
    HistoryState :=
  if st.currentPage > 1 then
    fetchHistoryOk st (st.currentPage - 1) resp
  else st

/-- A sequence of page navigations, each step a direction (`true` = next)
together with the response its successful fetch returns. -/
def navigate (st : HistoryState)
    (steps : List (Bool × (List CompiledPrompt × Nat))) : HistoryState :=
  steps.foldl (fun s step => if step.1 then nextPage s step.2 else prevPage s step.2) st

/-! ## Template store (stores/templateStore, `src/unnamed/part_002`) -/

/-- The template store's state fields touched by `deleteTemplate`. -/
structure TemplateStoreState where
  templates : List PromptTemplate
  currentTemplate : Option PromptTemplate
  total : Int
  error : Option String
  loading : Bool
deriving DecidableEq, Repr

/-- `deleteTemplate(templateId)` when `templateService.delete` succeeds:
the list is filtered by `t.template_id !== templateId`, `total -= 1`,
and `currentTemplate` is nulled when its id matches; `error` was cleared
on entry and `loading` is cleared by `finally`. -/
def deleteTemplateOk (st : TemplateStoreState) (templateId : String) :
    TemplateStoreState :=
  { st with
      templates := st.templates.filter (fun t => t.template_id ≠ templateId),
      total := st.total - 1,
      currentTemplate :=
        match st.currentTemplate with
        | some t => if t.template_id = templateId then none else some t
        | none => none,
      error := none,
      loading := false }

/-! ## Backend pipeline stages modelled from the specification

The repository's backend pipeline (Intent Extractor, Optimizer, Quality
Evaluator) is not among the checked sources; only its TypeScript-facing
types and its callers are.  The stage behaviours below are therefore
modelled from the specification, as their doc comments state. -/

/-- Modelled from the spec: §4.4 — the backend Optimizer's pass count per
level is missing from the sources.  "low = 0 passes (skip optimizer
entirely), medium = 1 pass, high = up to 2 passes". -/
def optimizationPasses : OptimizationLevel → Nat
  | .low => 0
  | .medium => 1
  | .high => 2

/-- Modelled from the spec: §4.4 — one optimization pass of the missing
backend Optimizer.  Submit the current prompt to the generative-model
service (`complete`), self-check the candidate; on self-check failure retry
once with a stricter instruction, then give up and keep the last good
version.  Returns the resulting text and whether a candidate was accepted. -/
def optimizerPass (complete : String → Option String)
    (selfCheck : String → Bool) (cur : String) : String × Bool :=
  match complete cur with
  | none => (cur, false)
  | some cand =>
      if selfCheck cand then (cand, true)
      else
        match complete ("STRICT: " ++ cur) with
        | none => (cur, false)
        | some cand2 => if selfCheck cand2 then (cand2, true) else (cur, false)

/-- Modelled from the spec: §4.4 — the missing backend Optimizer stage runs
`optimizationPasses level` passes over the assembler's draft render and
reports `(full_prompt, optimized)`. -/
def runOptimizer (complete : String → Option String)
    (selfCheck : String → Bool) (level : OptimizationLevel)
    (draft : String) : String × Bool :=
  (List.range (optimizationPasses level)).foldl
    (fun acc _ =>
      let r := optimizerPass complete selfCheck acc.1
      (r.1, acc.2 || r.2))
    (draft, false)

/-- The seven members of the `TaskType` enum, as a list. -/
def taskTypeEnum : List TaskType :=
  [.generation, .analysis, .conversation, .extraction,
   .transformation, .reasoning, .other]

/-- Modelled from the spec: §4.1 — the missing backend Intent Extractor's
fixed keyword vocabulary per task type. -/
def taskTypeVocab : List (TaskType × List String) :=
  [(.generation, ["write", "generate", "create"]),
   (.analysis, ["analyze", "analysis", "evaluate"]),
   (.conversation, ["chat", "conversation", "assistant"]),
   (.extraction, ["extract", "find", "list"]),
   (.transformation, ["translate", "convert", "rewrite"]),
   (.reasoning, ["why", "explain", "reason"])]

/-- Number of vocabulary keywords of one task type that occur as words of
the input. -/
def vocabHits (wordList : List String) (vocab : List String) : Nat :=
  (vocab.filter (fun kw => wordList.contains kw)).length

/-- Modelled from the spec: §4.1 — classify the task type by keyword
heuristics over the fixed vocabulary, falling back to `other` when no
class scores above the zero threshold.  Returns the class and its signal
count. -/
def classifyTask (input : String) : TaskType × Nat :=
  let wordList := input.splitOn " "
  taskTypeVocab.foldl
    (fun best entry =>
      let hits := vocabHits wordList entry.2
      if hits > best.2 then (entry.1, hits) else best)
    (.other, 0)

/-- Modelled from the spec: §4.1 — the missing backend Intent Extractor.
Empty input is rejected (`InputError`, §7); otherwise the task type comes
from the keyword heuristics, the domain defaults to "general", and the
confidence grows with the number of agreeing signals from the floor 0.3,
capped at 1. -/
def extractIntent (input : String) : Option IntentResult :=
  if input = "" then none
  else
    let cls := classifyTask input
    some
      { task_type := cls.1
        domain := "general"
        objective := input
        constraints := []
        keywords := (input.splitOn " ").filter (fun w => w ≠ "")
        context := []
        confidence := min 1 (3/10 + cls.2 / 10) }

/-- Modelled from the spec: §4.5 — the named sub-score weights of the
missing backend Quality Evaluator; structure and completeness are weighted
higher than clarity and the four weights sum to 1. -/
def wStructure : ℚ := 3/10

/-- Modelled from the spec: §4.5 — weight of the consistency sub-score. -/
def wConsistency : ℚ := 1/5

/-- Modelled from the spec: §4.5 — weight of the completeness sub-score. -/
def wCompleteness : ℚ := 3/10

/-- Modelled from the spec: §4.5 — weight of the clarity sub-score. -/
def wClarity : ℚ := 1/5

/-- The fixed weighted combination of the four sub-scores (§4.5). -/
def overallOf (s c comp cl : ℚ) : ℚ :=
  wStructure * s + wConsistency * c + wCompleteness * comp + wClarity * cl

/-- The required section headers of a rendered prompt (§4.5, structure). -/
def requiredSections : List String :=
  ["Role:", "Objective:", "Constraints:", "Output format:"]

/-- Fraction of required sections present in the text (§4.5). -/
def structureScoreOf (text : String) : ℚ :=
  let wordList := text.splitOn " "
  ((requiredSections.filter (fun s => wordList.contains s)).length : ℚ) /
    (requiredSections.length : ℚ)

/-- Token-overlap ratio between the prompt text and the intent's keywords
(§4.5, consistency). -/
def consistencyScoreOf (text : String) (intent : Option IntentResult) : ℚ :=
  match intent with
  | none => 1
  | some it =>
      if it.keywords.isEmpty then 1
      else
        let wordList := text.splitOn " "
        ((it.keywords.filter (fun kw => wordList.contains kw)).length : ℚ) /
          (it.keywords.length : ℚ)

/-- Fraction of intent constraints reflected in the text (§4.5). -/
def completenessScoreOf (text : String) (intent : Option IntentResult) : ℚ :=
  match intent with
  | none => 1
  | some it =>
      if it.constraints.isEmpty then 1
      else
        ((it.constraints.filter
            (fun c => charsInfixOf c.toList text.toList)).length : ℚ) /
          (it.constraints.length : ℚ)

/-- Inverse function of ambiguity signals: unresolved placeholder markers
lower the score (§4.5, clarity). -/
def clarityScoreOf (text : String) : ℚ :=
  let markers := ((text.splitOn " ").filter
    (fun w => charsInfixOf "\x7b\x7b".toList w.toList)).length
  1 / (1 + (markers : ℚ))

/-- Modelled from the spec: §4.5 — the missing backend Quality Evaluator.
The four sub-scores are computed independently and `overall_score` is their
fixed weighted combination, never an independently stored quantity. -/
def evaluateQuality (text : String) (intent : Option IntentResult) :
    QualityMetrics :=
  let s := structureScoreOf text
  let c := consistencyScoreOf text intent
  let comp := completenessScoreOf text intent
  let cl := clarityScoreOf text
  { structure_score := s
    consistency_score := c
    completeness_score := comp
    clarity_score := cl
    overall_score := overallOf s c comp cl }

/-! ## Sample values (used to instantiate theorems with hypotheses) -/

/-- A concrete `IntentResult`. -/
def sampleIntent : IntentResult :=
  { task_type := .analysis, domain := "finance", objective := "analyze reports"
    constraints := [], keywords := ["report"], context := [], confidence := 9/10 }

/-- A concrete `QualityMetrics`. -/
def sampleMetrics : QualityMetrics :=
  { structure_score := 1, consistency_score := 1, completeness_score := 1
    clarity_score := 1, overall_score := 1 }

/-- A concrete `CompiledPrompt`. -/
def samplePrompt : CompiledPrompt :=
  { version_id := "v1", original_input := "analyze my reports"
    intent := sampleIntent, template_id := none, role := "You are an analyst"
    objective := "analyze reports", constraints := [], output_format := "markdown"
    context := [], full_prompt := "Role: analyst", optimization_level := .medium
    optimized := true, created_at := "2026-01-01" }

/-- A concrete `PromptTemplate` with id `t1`. -/
def sampleTemplate : PromptTemplate :=
  { template_id := "t1", name := "Analysis", description := none
    role := "analyst", objective := "analyze", constraints := []
    output_format := "markdown", context_vars := [], task_types := [.analysis]
    domains := ["finance"], tags := [], created_at := "2026-01-01"
    updated_at := "2026-01-01", usage_count := 0, avg_quality_score := 1 }

/-- A second concrete `PromptTemplate` with id `t2`. -/
def sampleTemplate2 : PromptTemplate :=
  { sampleTemplate with template_id := "t2", name := "Writing" }

/-- A concrete template-store state holding both sample templates. -/
def sampleTemplateStore : TemplateStoreState :=
  { templates := [sampleTemplate, sampleTemplate2]
    currentTemplate := some sampleTemplate, total := 2
    error := none, loading := false }

/-- A concrete axios timeout error. -/
def sampleTimeoutError : AxiosErrorModel :=
  { code := some "ECONNABORTED", message := none, responseStatus := none
    responseDetail := none, responseErrorMessage := none, hasRequest := false }

/-- A concrete compile request with medium level and auto-evaluate on. -/
def sampleRequest : CompileRequest :=
  { user_input := "analyze my reports", template_id := none
    optimization_level := .medium, auto_evaluate := true }

/-- A concrete compile request with low level. -/
def sampleLowRequest : CompileRequest :=
  { user_input := "hello", template_id := none
    optimization_level := .low, auto_evaluate := false }

/-- A concrete prompt-store state holding a previous result. -/
def sampleStoreLoaded : PromptStoreState :=
  { loading := false, progress := .idle, error := none
    currentPrompt := some samplePrompt, currentMetrics := some sampleMetrics
    suggestions := ["tip"] }

/-- A concrete rejected compile outcome. -/
def sampleErrorOutcome : CompileOutcome := .error (some "boom")

/-- A concrete history-store state: 40 records, 20 per page, on page 1. -/
def sampleHistoryState : HistoryState :=
  { records := [], total := 40, currentPage := 1, pageSize := 20 }

/-- A concrete navigation sequence: next, next, previous, with stable
totals. -/
def sampleNavSteps : List (Bool × (List CompiledPrompt × Nat)) :=
  [(true, ([], 40)), (true, ([], 40)), (false, ([], 40))]

/-! ## Theorems -/

/-- Every `TaskType` value is a member of the seven-member enumeration. -/
theorem taskType_mem_enum (t : TaskType) : t ∈ taskTypeEnum := by
  cases t <;> simp [taskTypeEnum]

/--
C1 (counterexample). The code's `CompileResponse` interface carries the
field `success` (and `formatted_output`), which the spec's three-field
response shape does not contain, so the response record is not limited to
`compiled_prompt`, `metrics?`, `suggestions`.
-/
theorem compileResponse_shape_counterexample :
    ("success", true) ∈ compileResponseFields ∧
    ("success", true) ∉ specCompileResponseShape ∧
    ("success", false) ∉ specCompileResponseShape ∧
    ("formatted_output", true) ∈ compileResponseFields ∧
    ("formatted_output", true) ∉ specCompileResponseShape ∧
    compileResponseFields ≠ specCompileResponseShape := by
  decide

/--
C1 (amended). The compile request record has exactly the spec's shape
`{user_input, template_id?, optimization_level, auto_evaluate}`; the compile
response record contains the spec's fields `compiled_prompt`, `metrics?`
and `suggestions` with the same optionality, but additionally carries the
required fields `success` and `formatted_output`, and `metrics` is its only
optional field.
-/
theorem compile_contract_shape :
    compileRequestFields = specCompileRequestShape ∧
    specCompileResponseShape ⊆ compileResponseFields ∧
    compileResponseFields.map Prod.fst =
      ["success", "compiled_prompt", "metrics", "suggestions",
       "formatted_output"] ∧
    compileResponseFields.filter (fun p => !p.2) = [("metrics", false)] := by
  decide

/--
C5. Every call through the api client is created under the configured
120 s timeout, and a timed-out call is rejected as the structured value
`{status: 0, message: '请求超时，请稍后重试'}` by the response interceptor
rather than surfacing the raw transport error.
-/
theorem timeout_is_recoverable (e : AxiosErrorModel)
    (h : isTimeoutError e = true) :
    0 < apiClientConfig.timeout ∧
    interceptError e = { status := 0, message := "请求超时，请稍后重试" } := by
  refine ⟨by norm_num [apiClientConfig], ?_⟩
  simp [interceptError, h]

/-- C5 witness: the structured timeout rejection at a concrete
`ECONNABORTED` error. -/
theorem timeout_is_recoverable_witness :
    isTimeoutError sampleTimeoutError = true ∧
    (0 < apiClientConfig.timeout ∧
      interceptError sampleTimeoutError =
        { status := 0, message := "请求超时，请稍后重试" }) := by
  exact ⟨by decide, timeout_is_recoverable sampleTimeoutError (by decide)⟩

/--
C7. Every `QualityMetrics` the evaluator produces has
`overall_score = overallOf` of its own four sub-scores — the fixed weighted
combination — whose weights sum to 1 with structure and completeness
weighted strictly higher than clarity; it is never an independently
computed quantity.
-/
theorem overall_score_weighted (text : String) (intent : Option IntentResult) :
    (evaluateQuality text intent).overall_score =
      overallOf (evaluateQuality text intent).structure_score
        (evaluateQuality text intent).consistency_score
        (evaluateQuality text intent).completeness_score
        (evaluateQuality text intent).clarity_score ∧
    wStructure + wConsistency + wCompleteness + wClarity = 1 ∧
    wClarity < wStructure ∧ wClarity < wCompleteness := by
  refine ⟨rfl, ?_, ?_, ?_⟩
  · norm_num [wStructure, wConsistency, wCompleteness, wClarity]
  · norm_num [wStructure, wClarity]
  · norm_num [wCompleteness, wClarity]

/--
C10. After a successful `deleteTemplate(id)`, the store's template list is
exactly the previous elements whose `template_id` differs from `id` in
their original order, `total` decreases by exactly one, and
`currentTemplate` is nulled precisely when its id was `id`.
-/
theorem deleteTemplate_frame (st : TemplateStoreState) (id : String) :
    (∀ t, t ∈ (deleteTemplateOk st id).templates ↔
      (t ∈ st.templates ∧ t.template_id ≠ id)) ∧
    (deleteTemplateOk st id).templates.Sublist st.templates ∧
    (deleteTemplateOk st id).total = st.total - 1 ∧
    (∀ t, st.currentTemplate = some t →
      (deleteTemplateOk st id).currentTemplate =
        (if t.template_id = id then none else some t)) ∧
    (st.currentTemplate = none →
      (deleteTemplateOk st id).currentTemplate = none) := by
  refine ⟨?_, List.filter_sublist _, rfl, ?_, ?_⟩
  · intro t
    simp [deleteTemplateOk, List.mem_filter]
  · intro t ht
    simp [deleteTemplateOk, ht]
  · intro h
    simp [deleteTemplateOk, h]

/-- C10 witness: deleting `t1` from the sample store nulls the matching
`currentTemplate`. -/
theorem deleteTemplate_frame_witness :
    sampleTemplateStore.currentTemplate = some sampleTemplate ∧
    (deleteTemplateOk sampleTemplateStore "t1").currentTemplate =
      (if sampleTemplate.template_id = "t1" then none else some sampleTemplate) := by
  exact ⟨rfl, (deleteTemplate_frame sampleTemplateStore "t1").2.2.2.1
    sampleTemplate rfl⟩

/-- The ticker never decreases the progress position. -/
theorem progressTick_idx_mono (req : CompileRequest) (p : CompileProgress) :
    p.idx ≤ (progressTick req p).idx := by
  rcases req with ⟨ui, tid, lvl, ae⟩
  cases p <;> cases lvl <;> cases ae <;>
    simp [progressTick, CompileProgress.idx]

/-- With `auto_evaluate` off, the ticker never enters the evaluating state
from any other state. -/
theorem progressTick_no_evaluating (req : CompileRequest) (p : CompileProgress)
    (hae : req.auto_evaluate = false) (hp : p ≠ .evaluating) :
    progressTick req p ≠ .evaluating := by
  rcases req with ⟨ui, tid, lvl, ae⟩
  cases hae
  cases p <;> cases lvl <;>
    first | exact absurd rfl hp | simp [progressTick]

/-- With `auto_evaluate` off, the progress trace never shows evaluating. -/
theorem progressTrace_no_evaluating (req : CompileRequest) (n : Nat)
    (hae : req.auto_evaluate = false) :
    progressTrace req n ≠ .evaluating := by
  induction n with
  | zero => simp [progressTrace]
  | succ n ih =>
      rw [progressTrace, Function.iterate_succ_apply']
      exact progressTick_no_evaluating req _ hae ih

/-- With a low optimization level, the ticker never produces the
optimizing state. -/
theorem progressTick_low_ne_optimizing (req : CompileRequest)
    (p : CompileProgress) (hlow : req.optimization_level = .low) :
    progressTick req p ≠ .optimizing := by
  rcases req with ⟨ui, tid, lvl, ae⟩
  cases hlow
  cases p <;> cases ae <;> simp [progressTick]

/-- The terminal progress state of `compile` is completed exactly on a
well-formed response and error exactly otherwise. -/
theorem compileStep_progress_iff (st : PromptStoreState) (req : CompileRequest)
    (ticks : Nat) (o : CompileOutcome) :
    ((compileStep st req ticks o).1.progress = .completed ↔
      respWellFormed o = true) ∧
    ((compileStep st req ticks o).1.progress = .error ↔
      respWellFormed o = false) := by
  rcases o with msg | r
  · simp [compileStep, respWellFormed]
  · rcases r with _ | r
    · simp [compileStep, respWellFormed]
    · rcases hcp : r.compiled_prompt with _ | p <;>
        simp [compileStep, respWellFormed, hcp]

/--
C2. For every compile request the progress state machine only moves
forward in the declared order (`CompileProgress.idx` never decreases along
the ticker, hence along the trace); the evaluating state is entered only
when the request's `auto_evaluate` flag is true; and the run terminates in
the completed state exactly when a well-formed response (one carrying a
`compiled_prompt`) arrives, and in the error state exactly when the call
is rejected or the response lacks a `compiled_prompt`.
-/
theorem compile_progress_state_machine (req : CompileRequest)
    (p : CompileProgress) (st : PromptStoreState) (ticks n : Nat)
    (o : CompileOutcome) :
    p.idx ≤ (progressTick req p).idx ∧
    (progressTrace req n).idx ≤ (progressTrace req (n + 1)).idx ∧
    (p ≠ .evaluating → progressTick req p = .evaluating →
      req.auto_evaluate = true) ∧
    (req.auto_evaluate = false → progressTrace req n ≠ .evaluating) ∧
    ((compileStep st req ticks o).1.progress = .completed ↔
      respWellFormed o = true) ∧
    ((compileStep st req ticks o).1.progress = .error ↔
      respWellFormed o = false) := by
  refine ⟨progressTick_idx_mono req p, ?_, ?_, ?_,
    (compileStep_progress_iff st req ticks o).1,
    (compileStep_progress_iff st req ticks o).2⟩
  · have h : progressTrace req (n + 1) =
        progressTick req (progressTrace req n) :=
      Function.iterate_succ_apply' (progressTick req) n CompileProgress.starting
    rw [h]
    exact progressTick_idx_mono req _
  · intro hp hev
    by_contra hae
    exact progressTick_no_evaluating req p (Bool.not_eq_true _ ▸ hae) hp hev
  · exact fun hae => progressTrace_no_evaluating req n hae

/-- C2 witness: with auto-evaluate on, the ticker enters evaluating from
self-checking, and the theorem yields the flag back. -/
theorem compile_progress_state_machine_witness :
    (CompileProgress.self_checking ≠ CompileProgress.evaluating) ∧
    progressTick sampleRequest .self_checking = .evaluating ∧
    sampleRequest.auto_evaluate = true := by
  refine ⟨by decide, by decide, ?_⟩
  exact (compile_progress_state_machine sampleRequest .self_checking
    sampleStoreLoaded 0 0 sampleErrorOutcome).2.2.1 (by decide) (by decide)

/--
C3. For a request with low optimization level the optimizer is skipped
entirely: the pass count is 0, the optimizer returns the assembler's draft
unchanged with `optimized = false`, and the optimizing progress state is
never entered during the run.
-/
theorem low_level_skips_optimizer (req : CompileRequest)
    (hlow : req.optimization_level = .low)
    (complete : String → Option String) (selfCheck : String → Bool)
    (draft : String) (n : Nat) :
    optimizationPasses req.optimization_level = 0 ∧
    runOptimizer complete selfCheck req.optimization_level draft =
      (draft, false) ∧
    progressTrace req n ≠ .optimizing := by
  refine ⟨by rw [hlow]; rfl, by rw [hlow]; rfl, ?_⟩
  cases n with
  | zero => simp [progressTrace]
  | succ n =>
      rw [progressTrace, Function.iterate_succ_apply']
      exact progressTick_low_ne_optimizing req _ hlow

/-- C3 witness: a concrete low-level request skips the optimizer and keeps
the draft, and its trace avoids the optimizing state. -/
theorem low_level_skips_optimizer_witness :
    sampleLowRequest.optimization_level = .low ∧
    (optimizationPasses sampleLowRequest.optimization_level = 0 ∧
     runOptimizer (fun s => some (s ++ "!")) (fun _ => true)
       sampleLowRequest.optimization_level "draft" = ("draft", false) ∧
     progressTrace sampleLowRequest 5 ≠ .optimizing) := by
  exact ⟨rfl, low_level_skips_optimizer sampleLowRequest rfl
    (fun s => some (s ++ "!")) (fun _ => true) "draft" 5⟩

/--
C4. An evaluation failure is non-fatal: a response carrying a
`compiled_prompt` but no `metrics` is still accepted — the prompt is
stored, metrics are recorded as absent, suggestions default to the empty
list when missing, the run reaches the completed state and the response is
returned.
-/
theorem missing_metrics_nonfatal (st : PromptStoreState) (req : CompileRequest)
    (ticks : Nat) (r : CompileResponseWire) (p : CompiledPrompt)
    (hp : r.compiled_prompt = some p) (hm : r.metrics = none) :
    (compileStep st req ticks (.ok (some r))).1.currentPrompt = some p ∧
    (compileStep st req ticks (.ok (some r))).1.currentMetrics = none ∧
    (compileStep st req ticks (.ok (some r))).1.suggestions =
      r.suggestions.getD [] ∧
    (r.suggestions = none →
      (compileStep st req ticks (.ok (some r))).1.suggestions = []) ∧
    (compileStep st req ticks (.ok (some r))).1.progress = .completed ∧
    (compileStep st req ticks (.ok (some r))).2 = some r := by
  refine ⟨?_, ?_, ?_, ?_, ?_, ?_⟩ <;>
    simp [compileStep, hp, hm]
  intro hs
  simp [hs]

/-- C4 witness: a concrete metrics-less response still completes. -/
theorem missing_metrics_nonfatal_witness :
    ({ success := true, compiled_prompt := some samplePrompt, metrics := none
       suggestions := none, formatted_output := none } :
        CompileResponseWire).compiled_prompt = some samplePrompt ∧
    ({ success := true, compiled_prompt := some samplePrompt, metrics := none
       suggestions := none, formatted_output := none } :
        CompileResponseWire).metrics = none ∧
    (compileStep sampleStoreLoaded sampleRequest 3
      (.ok (some { success := true, compiled_prompt := some samplePrompt
                   metrics := none, suggestions := none
                   formatted_output := none }))).1.progress = .completed := by
  refine ⟨rfl, rfl, ?_⟩
  exact (missing_metrics_nonfatal sampleStoreLoaded sampleRequest 3
    _ samplePrompt rfl rfl).2.2.2.2.1

/--
C8. The prompt store's `compile` is atomic on error: when the call rejects
or the response lacks a `compiled_prompt`, it returns null, sets a non-null
error message, leaves the progress in the error state (also through the
delayed reset), and `currentPrompt`, `currentMetrics` and `suggestions`
retain exactly their pre-call values.
-/
theorem compile_atomic_on_error (st : PromptStoreState) (req : CompileRequest)
    (ticks : Nat) (o : CompileOutcome) (h : respWellFormed o = false) :
    (compileStep st req ticks o).2 = none ∧
    (compileStep st req ticks o).1.error.isSome = true ∧
    (compileStep st req ticks o).1.progress = .error ∧
    (delayedProgressReset (compileStep st req ticks o).1).progress = .error ∧
    (compileStep st req ticks o).1.currentPrompt = st.currentPrompt ∧
    (compileStep st req ticks o).1.currentMetrics = st.currentMetrics ∧
    (compileStep st req ticks o).1.suggestions = st.suggestions := by
  rcases o with msg | r
  · simp [compileStep, delayedProgressReset]
  · rcases r with _ | r
    · simp [compileStep, delayedProgressReset]
    · rcases hcp : r.compiled_prompt with _ | p
      · simp [compileStep, delayedProgressReset, hcp]
      · simp [respWellFormed, hcp] at h

/-- C8 witness: a concrete rejected call leaves the loaded store's result
fields untouched and reports the error state. -/
theorem compile_atomic_on_error_witness :
    respWellFormed sampleErrorOutcome = false ∧
    ((compileStep sampleStoreLoaded sampleRequest 2 sampleErrorOutcome).2 =
        none ∧
     (compileStep sampleStoreLoaded sampleRequest 2
        sampleErrorOutcome).1.error.isSome = true ∧
     (compileStep sampleStoreLoaded sampleRequest 2
        sampleErrorOutcome).1.progress = .error ∧
     (delayedProgressReset (compileStep sampleStoreLoaded sampleRequest 2
        sampleErrorOutcome).1).progress = .error ∧
     (compileStep sampleStoreLoaded sampleRequest 2
        sampleErrorOutcome).1.currentPrompt = sampleStoreLoaded.currentPrompt ∧
     (compileStep sampleStoreLoaded sampleRequest 2
        sampleErrorOutcome).1.currentMetrics = sampleStoreLoaded.currentMetrics ∧
     (compileStep sampleStoreLoaded sampleRequest 2
        sampleErrorOutcome).1.suggestions = sampleStoreLoaded.suggestions) := by
  exact ⟨rfl, compile_atomic_on_error sampleStoreLoaded sampleRequest 2
    sampleErrorOutcome rfl⟩

/--
C6. For every non-empty input the Intent Extractor returns a result with
confidence in (0, 1] and a task type in the fixed seven-member
enumeration, never null.
-/
theorem intent_confidence_in_unit (input : String) (h : input ≠ "") :
    ∃ r, extractIntent input = some r ∧
      0 < r.confidence ∧ r.confidence ≤ 1 ∧ r.task_type ∈ taskTypeEnum := by
  unfold extractIntent
  rw [if_neg h]
  refine ⟨_, rfl, ?_, ?_, taskType_mem_enum _⟩
  · show (0 : ℚ) < min 1 (3/10 + ((classifyTask input).2 : ℚ) / 10)
    rw [lt_min_iff]
    constructor
    · norm_num
    · positivity
  · exact min_le_left _ _

/-- C6 witness: a concrete non-empty input. -/
theorem intent_confidence_in_unit_witness :
    ("hello" : String) ≠ "" ∧
    ∃ r, extractIntent "hello" = some r ∧
      0 < r.confidence ∧ r.confidence ≤ 1 ∧ r.task_type ∈ taskTypeEnum := by
  exact ⟨by decide, intent_confidence_in_unit "hello" (by decide)⟩

/-- `totalPages` (ceiling of a rational division) agrees with natural
ceiling division when the page size is positive. -/
theorem totalPages_eq_ceilDiv (st : HistoryState) (h : 0 < st.pageSize) :
    totalPages st = (st.total + st.pageSize - 1) / st.pageSize := by
  have hbq : (0 : ℚ) < (st.pageSize : ℚ) := by exact_mod_cast h
  rw [totalPages, totalPagesOf, Int.ceil_toNat, ← Nat.ceilDiv_eq_add_pred_div]
  apply le_antisymm
  · rw [Nat.ceil_le, div_le_iff₀ hbq]
    have hle := (ceilDiv_le_iff_le_smul h
      (b := st.total) (c := st.total ⌈/⌉ st.pageSize)).mp le_rfl
    calc (st.total : ℚ)
        ≤ ((st.pageSize * (st.total ⌈/⌉ st.pageSize) : ℕ) : ℚ) := by
          exact_mod_cast hle
      _ = ((st.total ⌈/⌉ st.pageSize : ℕ) : ℚ) * (st.pageSize : ℚ) := by
          push_cast; ring
  · rw [ceilDiv_le_iff_le_smul h]
    have hc := Nat.le_ceil ((st.total : ℚ) / (st.pageSize : ℚ))
    rw [div_le_iff₀ hbq] at hc
    have : (st.total : ℚ) ≤
        ((st.pageSize * ⌈(st.total : ℚ) / (st.pageSize : ℚ)⌉₊ : ℕ) : ℚ) := by
      push_cast
      linarith
    exact_mod_cast this

/-- One navigation step keeps the page within bounds and preserves the
total and page size, provided the fetch reports the same total. -/
theorem navStep_preserves (st : HistoryState) (dir : Bool)
    (resp : List CompiledPrompt × Nat) (hresp : resp.2 = st.total)
    (h1 : 1 ≤ st.currentPage) (h2 : st.currentPage ≤ totalPages st) :
    (if dir then nextPage st resp else prevPage st resp).total = st.total ∧
    (if dir then nextPage st resp else prevPage st resp).pageSize =
      st.pageSize ∧
    1 ≤ (if dir then nextPage st resp else prevPage st resp).currentPage ∧
    (if dir then nextPage st resp else prevPage st resp).currentPage ≤
      totalPages (if dir then nextPage st resp else prevPage st resp) := by
  simp only [totalPages] at h2 ⊢
  cases dir
  · show (prevPage st resp).total = st.total ∧
      (prevPage st resp).pageSize = st.pageSize ∧
      1 ≤ (prevPage st resp).currentPage ∧
      (prevPage st resp).currentPage ≤
        totalPagesOf (prevPage st resp).total (prevPage st resp).pageSize
    unfold prevPage fetchHistoryOk
    split
    · refine ⟨hresp, rfl, ?_, ?_⟩
      · show 1 ≤ st.currentPage - 1
        omega
      · show st.currentPage - 1 ≤ totalPagesOf resp.2 st.pageSize
        rw [hresp]
        omega
    · exact ⟨rfl, rfl, h1, h2⟩
  · show (nextPage st resp).total = st.total ∧
      (nextPage st resp).pageSize = st.pageSize ∧
      1 ≤ (nextPage st resp).currentPage ∧
      (nextPage st resp).currentPage ≤
        totalPagesOf (nextPage st resp).total (nextPage st resp).pageSize
    unfold nextPage fetchHistoryOk
    split
    · rename_i hlt
      simp only [totalPages] at hlt
      refine ⟨hresp, rfl, ?_, ?_⟩
      · show 1 ≤ st.currentPage + 1
        omega
      · show st.currentPage + 1 ≤ totalPagesOf resp.2 st.pageSize
        rw [hresp]
        omega
    · exact ⟨rfl, rfl, h1, h2⟩

/-- Repeated navigation with stable totals keeps the page within
`[1, totalPages]`. -/
theorem navigate_preserves
    (steps : List (Bool × (List CompiledPrompt × Nat))) :
    ∀ st : HistoryState, 1 ≤ st.currentPage →
      st.currentPage ≤ totalPages st →
      (∀ s ∈ steps, s.2.2 = st.total) →
      1 ≤ (navigate st steps).currentPage ∧
      (navigate st steps).currentPage ≤ totalPages (navigate st steps) := by
  induction steps with
  | nil => exact fun st h1 h2 _ => ⟨h1, h2⟩
  | cons s rest ih =>
      intro st h1 h2 hst
      have hs : s.2.2 = st.total := hst s (List.mem_cons_self s rest)
      have hstep := navStep_preserves st s.1 s.2 hs h1 h2
      have hnav : navigate st (s :: rest) =
          navigate (if s.1 then nextPage st s.2 else prevPage st s.2) rest := by
        unfold navigate
        rfl
      rw [hnav]
      exact ih _ hstep.2.2.1 hstep.2.2.2
        (fun s' hs' => (hstep.1).symm ▸ hst s' (List.mem_cons_of_mem s hs'))

/--
C9. The history store's pagination invariant: `totalPages` is the ceiling
of `total / pageSize`; a successful `nextPage` adds exactly one to
`currentPage` only when `currentPage < totalPages` (otherwise leaving it
unchanged); a successful `prevPage` subtracts exactly one only when
`currentPage > 1`; hence repeated navigation from page 1 under stable
totals keeps `currentPage` within `[1, totalPages]` whenever
`totalPages ≥ 1`.
-/
theorem pagination_invariant (st : HistoryState)
    (resp : List CompiledPrompt × Nat)
    (steps : List (Bool × (List CompiledPrompt × Nat))) :
    (0 < st.pageSize →
      totalPages st = (st.total + st.pageSize - 1) / st.pageSize) ∧
    (nextPage st resp).currentPage =
      (if st.currentPage < totalPages st then st.currentPage + 1
       else st.currentPage) ∧
    (prevPage st resp).currentPage =
      (if 1 < st.currentPage then st.currentPage - 1
       else st.currentPage) ∧
    (st.currentPage = 1 → 1 ≤ totalPages st →
      (∀ s ∈ steps, s.2.2 = st.total) →
      1 ≤ (navigate st steps).currentPage ∧
      (navigate st steps).currentPage ≤ totalPages (navigate st steps)) := by
  refine ⟨fun h => totalPages_eq_ceilDiv st h, ?_, ?_, ?_⟩
  · unfold nextPage fetchHistoryOk
    split <;> rfl
  · unfold prevPage fetchHistoryOk
    split <;> rfl
  · intro hcp htp hst
    exact navigate_preserves steps st (by omega) (by omega) hst

/-- C9 witness: 40 records at 20 per page give 2 pages, and the sample
navigation stays within bounds. -/
theorem pagination_invariant_witness :
    0 < sampleHistoryState.pageSize ∧
    sampleHistoryState.currentPage = 1 ∧
    1 ≤ totalPages sampleHistoryState ∧
    (∀ s ∈ sampleNavSteps, s.2.2 = sampleHistoryState.total) ∧
    (1 ≤ (navigate sampleHistoryState sampleNavSteps).currentPage ∧
     (navigate sampleHistoryState sampleNavSteps).currentPage ≤
       totalPages (navigate sampleHistoryState sampleNavSteps)) := by
  have htp : 1 ≤ totalPages sampleHistoryState := by
    norm_num [totalPages, totalPagesOf, sampleHistoryState]
  refine ⟨by norm_num [sampleHistoryState], rfl, htp, by decide, ?_⟩
  exact (pagination_invariant sampleHistoryState ([], 40)
    sampleNavSteps).2.2.2 rfl htp (by decide)

/--
C9 (counterexample). Without stable totals the navigation bound fails on
the code: from page 1 with total 40 and pageSize 20 (so 2 pages), one
`nextPage` whose successful fetch reports total 20 stores the new total
after moving to page 2, leaving `currentPage = 2` above the new
`totalPages = 1` — so repeated navigation from page 1 does not keep
`currentPage ≤ totalPages` under successful fetches alone.
-/
theorem pagination_navigation_counterexample :
    totalPages sampleHistoryState = 2 ∧
    sampleHistoryState.currentPage = 1 ∧
    1 ≤ totalPages (nextPage sampleHistoryState ([], 20)) ∧
    (nextPage sampleHistoryState ([], 20)).currentPage = 2 ∧
    totalPages (nextPage sampleHistoryState ([], 20)) = 1 ∧
    ¬((nextPage sampleHistoryState ([], 20)).currentPage ≤
        totalPages (nextPage sampleHistoryState ([], 20))) := by
  have h1 : totalPages sampleHistoryState = 2 := by
    norm_num [totalPages, totalPagesOf, sampleHistoryState, Int.toNat]
  have hnext : nextPage sampleHistoryState ([], 20) =
      { records := [], total := 20, currentPage := 2, pageSize := 20 } := by
    rw [nextPage, if_pos]
    · rfl
    · rw [h1]
      norm_num [sampleHistoryState]
  have h2 : totalPages
      ({ records := [], total := 20, currentPage := 2, pageSize := 20 } :
        HistoryState) = 1 := by
    norm_num [totalPages, totalPagesOf, Int.toNat]
  refine ⟨h1, rfl, ?_, ?_, ?_, ?_⟩
  · rw [hnext, h2]
  · rw [hnext]
  · rw [hnext, h2]
  · rw [hnext]
    show ¬(2 ≤ totalPages
      ({ records := [], total := 20, currentPage := 2, pageSize := 20 } :
        HistoryState))
    rw [h2]
    omega

end PromptCompiler
